import Mathlib

/-!
Shallow embedding of the item-management HTTP API (src/main.py).

The program is a FastAPI application backed by a SQL table (the spec's
"persistent variant").  The store is modelled as an explicit state value: a
list of table rows in primary-key (insertion) order together with the
autoincrement counter.  The database engine itself is an external
collaborator of the repository; its transaction semantics are modelled from
the spec's Store contract (§4.2/§4.3): a commit either applies the full
staged effect or, on failure, the session is rolled back and the prior state
is restored.  Each mutating endpoint therefore takes a `commitOk : Bool`
oracle telling whether the store signals a failure on commit.

An endpoint returns `Except HTTPException result × Store`: the raised
HTTP exception (status code and detail string, as in the source) or the
value returned, paired with the store state after the request.
-/

namespace LearnApi

/-- An HTTP error response: status code and detail string, as raised by
`HTTPException(status_code=..., detail=...)` in the source. -/
structure HTTPException where
  status_code : Nat
  detail : String
deriving DecidableEq, Repr

/-- Raised by `get_api_key` when the `X-API-Key` header is absent
(src/main.py lines 33-37). -/
def missingCredentialExc : HTTPException :=
  { status_code := 401, detail := "API Key header was not provided" }

/-- Raised by `get_api_key` when the presented key mismatches
(src/main.py lines 38-42). -/
def invalidCredentialExc : HTTPException :=
  { status_code := 401, detail := "Invalid API Key" }

/-- Embeds `get_api_key` (src/main.py lines 32-43).  `API_KEY` is the
configured secret, `os.getenv` returning `Optional[str]`; the header value is
also optional (`auto_error=False`).  Note the source compares the plain
header string against the optional secret with `!=`; in Python a string is
never equal to `None`, so the comparison is `some k ≠ API_KEY`. -/
def get_api_key (API_KEY : Option String) (api_key_header : Option String) :
    Except HTTPException String :=
  match api_key_header with
  | none => .error missingCredentialExc
  | some k => if some k ≠ API_KEY then .error invalidCredentialExc else .ok k

/-- A row of the `items` table (class `DBItem`, src/main.py lines 46-53).
Every non-primary-key column is nullable (SQLAlchemy default), hence the
`Option` field types.  `price` is a SQL float on which the program does no
arithmetic; its values are modelled as rationals. -/
structure DBItem where
  id : Nat
  name : Option String
  price : Option Rat
  description : Option String
  is_offer : Option Bool
deriving DecidableEq, Repr

/-- The store state: the table rows in primary-key order plus the
autoincrement counter.  Modelled from the spec: the storage engine is an
external collaborator; per §4.2 `insert` assigns a fresh identifier from an
autoincrement primary key. -/
structure Store where
  items : List DBItem
  nextId : Nat
deriving DecidableEq, Repr

/-- `db.query(DBItem).filter(DBItem.id == item_id).first()`: the first row
whose primary key equals `item_id`. -/
def Store.getItem (db : Store) (item_id : Nat) : Option DBItem :=
  db.items.find? (fun r => r.id == item_id)

/-- Well-formedness of a store state: every issued identifier is below the
autoincrement counter.  Holds for every state reachable from an empty store. -/
def Store.WF (db : Store) : Prop :=
  ∀ r ∈ db.items, r.id < db.nextId

/-- The `ItemCreate` pydantic model (src/main.py lines 56-63): `name` and
`price` required, `description` and `is_offer` optional defaulting to None. -/
structure ItemCreate where
  name : String
  price : Rat
  description : Option String := none
  is_offer : Option Bool := none
deriving DecidableEq, Repr

/-- The `ItemUpdate` pydantic model (src/main.py lines 65-69).  Because the
endpoint dumps it with `exclude_unset=True`, each field distinguishes
"not supplied" (`none`) from "supplied with a value" (`some v`), where the
supplied value may itself be null (`some none`) since every field is
`Optional`. -/
structure ItemUpdate where
  name : Option (Option String) := none
  price : Option (Option Rat) := none
  description : Option (Option String) := none
  is_offer : Option (Option Bool) := none
deriving DecidableEq, Repr

/-- `not item_update.model_dump(exclude_unset=True)`: true iff no field was
supplied in the request payload. -/
def ItemUpdate.isEmptyDump (u : ItemUpdate) : Bool :=
  u.name.isNone && u.price.isNone && u.description.isNone && u.is_offer.isNone

/-- The `setattr` loop of `update_item_endpoint` (src/main.py lines 144-145):
each supplied field overwrites the row's field with the supplied value;
unsupplied fields and the primary key are untouched. -/
def applyUpdate (u : ItemUpdate) (r : DBItem) : DBItem :=
  { id := r.id,
    name := u.name.getD r.name,
    price := u.price.getD r.price,
    description := u.description.getD r.description,
    is_offer := u.is_offer.getD r.is_offer }

/-- The 404 raised by get/update/delete on a missing id, with the source's
f-string detail (src/main.py lines 121, 138, 164). -/
def notFoundExc (item_id : Nat) : HTTPException :=
  { status_code := 404, detail := "Item with id " ++ toString item_id ++ " not found" }

/-- The 500 raised when create's commit fails (src/main.py line 113). -/
def createFailedExc : HTTPException :=
  { status_code := 500, detail := "Could not create item in database." }

/-- The 500 raised when update's commit fails (src/main.py line 156). -/
def updateFailedExc : HTTPException :=
  { status_code := 500, detail := "Could not update item in database." }

/-- The 500 raised when delete's commit fails (src/main.py line 175). -/
def deleteFailedExc : HTTPException :=
  { status_code := 500, detail := "Could not delete item from database." }

/-- The 400 raised by update when no fields are supplied (src/main.py
line 142). -/
def emptyUpdateExc : HTTPException :=
  { status_code := 400, detail := "No fields to update provided." }

/-- Embeds `create_item_endpoint` (src/main.py lines 100-113).  The API-key
dependency runs first; then a row is built from the payload and committed.
On commit failure the session is rolled back (state unchanged) and a 500 is
raised. -/
def create_item_endpoint (API_KEY header : Option String) (item : ItemCreate)
    (commitOk : Bool) (db : Store) : Except HTTPException DBItem × Store :=
  match get_api_key API_KEY header with
  | .error e => (.error e, db)
  | .ok _ =>
      let db_item : DBItem :=
        { id := db.nextId, name := some item.name, price := some item.price,
          description := item.description, is_offer := item.is_offer }
      if commitOk then
        (.ok db_item, { items := db.items ++ [db_item], nextId := db.nextId + 1 })
      else
        (.error createFailedExc, db)

/-- Embeds `read_item_endpoint` (src/main.py lines 115-123). -/
def read_item_endpoint (API_KEY header : Option String) (item_id : Nat)
    (db : Store) : Except HTTPException DBItem × Store :=
  match get_api_key API_KEY header with
  | .error e => (.error e, db)
  | .ok _ =>
      match db.getItem item_id with
      | none => (.error (notFoundExc item_id), db)
      | some r => (.ok r, db)

/-- Embeds `list_items_endpoint` (src/main.py lines 125-130):
`query.offset(skip).limit(limit).all()` in primary-key order. -/
def list_items_endpoint (API_KEY header : Option String) (skip limit : Nat)
    (db : Store) : Except HTTPException (List DBItem) × Store :=
  match get_api_key API_KEY header with
  | .error e => (.error e, db)
  | .ok _ => (.ok ((db.items.drop skip).take limit), db)

/-- Embeds `update_item_endpoint` (src/main.py lines 132-156): existence
check first, then the empty-payload check, then the `setattr` merge and
commit; on commit failure the session is rolled back and a 500 raised. -/
def update_item_endpoint (API_KEY header : Option String) (item_id : Nat)
    (item_update : ItemUpdate) (commitOk : Bool) (db : Store) :
    Except HTTPException DBItem × Store :=
  match get_api_key API_KEY header with
  | .error e => (.error e, db)
  | .ok _ =>
      match db.getItem item_id with
      | none => (.error (notFoundExc item_id), db)
      | some r =>
          if item_update.isEmptyDump then (.error emptyUpdateExc, db)
          else if commitOk then
            let merged :=
              db.items.map (fun x => if x.id == item_id then applyUpdate item_update x else x)
            (.ok (applyUpdate item_update r), { db with items := merged })
          else (.error updateFailedExc, db)

/-- Embeds `delete_item_endpoint` (src/main.py lines 158-175): existence
check, then deletion of the row by primary key; 204 (modelled as `Unit`) on
success, rollback and 500 on commit failure. -/
def delete_item_endpoint (API_KEY header : Option String) (item_id : Nat)
    (commitOk : Bool) (db : Store) : Except HTTPException Unit × Store :=
  match get_api_key API_KEY header with
  | .error e => (.error e, db)
  | .ok _ =>
      match db.getItem item_id with
      | none => (.error (notFoundExc item_id), db)
      | some _ =>
          if commitOk then
            (.ok (), { db with items := db.items.filter (fun x => !(x.id == item_id)) })
          else (.error deleteFailedExc, db)

/-- JSON values, for modelling the request body before pydantic validation. -/
inductive Json where
  | null : Json
  | bool (b : Bool) : Json
  | num (q : Rat) : Json
  | str (s : String) : Json
  | arr (elems : List Json) : Json
  | obj (fields : List (String × Json)) : Json

/-- Field lookup in a JSON object; `none` for absent fields and non-objects. -/
def Json.getField (j : Json) (key : String) : Option Json :=
  match j with
  | .obj fields => (fields.find? (fun kv => kv.1 == key)).map (fun kv => kv.2)
  | _ => none

/-- FastAPI's 422 response for a request body failing pydantic validation. -/
def validationErrorExc : HTTPException :=
  { status_code := 422, detail := "Unprocessable Entity" }

/-- Validation of a required `str` field: any JSON string is accepted
(pydantic `name: str` imposes no non-emptiness constraint). -/
def parseRequiredStr (v : Option Json) : Except HTTPException String :=
  match v with
  | some (.str s) => .ok s
  | _ => .error validationErrorExc

/-- Validation of a required `float` field: any JSON number is accepted. -/
def parseRequiredNum (v : Option Json) : Except HTTPException Rat :=
  match v with
  | some (.num q) => .ok q
  | _ => .error validationErrorExc

/-- Validation of an `Optional[str] = None` field: absent or null means
unset, a string is accepted, anything else is rejected. -/
def parseOptionalStr (v : Option Json) : Except HTTPException (Option String) :=
  match v with
  | none => .ok none
  | some .null => .ok none
  | some (.str s) => .ok (some s)
  | _ => .error validationErrorExc

/-- Validation of an `Optional[bool] = None` field. -/
def parseOptionalBool (v : Option Json) : Except HTTPException (Option Bool) :=
  match v with
  | none => .ok none
  | some .null => .ok none
  | some (.bool b) => .ok (some b)
  | _ => .error validationErrorExc

/-- Pydantic validation of a request body against `ItemCreate`
(src/main.py lines 56-63): `name` required and string-typed, `price`
required and numeric, `description`/`is_offer` optional of their declared
types.  A malformed body yields the 422 validation error. -/
def validateItemCreate (j : Json) : Except HTTPException ItemCreate := do
  let n ← parseRequiredStr (j.getField "name")
  let p ← parseRequiredNum (j.getField "price")
  let d ← parseOptionalStr (j.getField "description")
  let o ← parseOptionalBool (j.getField "is_offer")
  return { name := n, price := p, description := d, is_offer := o }

/-- The create endpoint from the raw request body: the security dependency
runs first, then the body is validated against `ItemCreate`, and only then
the store is touched. -/
def create_item_raw (API_KEY header : Option String) (body : Json)
    (commitOk : Bool) (db : Store) : Except HTTPException DBItem × Store :=
  match get_api_key API_KEY header with
  | .error e => (.error e, db)
  | .ok _ =>
      match validateItemCreate body with
      | .error e => (.error e, db)
      | .ok item => create_item_endpoint API_KEY header item commitOk db

/-- The empty store a fresh deployment starts from. -/
def store0 : Store := { items := [], nextId := 1 }

/-- A store holding one item, as after the spec's §8 scenario create. -/
def widget : DBItem :=
  { id := 1, name := some "Widget", price := some 10, description := none,
    is_offer := none }

/-- A one-item store used to instantiate theorems with hypotheses. -/
def store1 : Store := { items := [widget], nextId := 2 }

end LearnApi

namespace LearnApi

/-- With a matching key, `get_api_key` succeeds. -/
lemma get_api_key_ok {API_KEY : Option String} {k : String} (hk : some k = API_KEY) :
    get_api_key API_KEY (some k) = .ok k := by
  subst hk; simp [get_api_key]

/-- With a mismatched key, `get_api_key` raises the invalid-key 401. -/
lemma get_api_key_mismatch {API_KEY : Option String} {k : String}
    (hk : some k ≠ API_KEY) :
    get_api_key API_KEY (some k) = .error invalidCredentialExc := by
  simp [get_api_key, hk]

/-- Claim C1: creating a valid item and then fetching the id the create
returned yields an item whose name, price, description and is_offer equal
the payload's, and whose id is the assigned id (on any well-formed store,
with a matching key and a successful commit). -/
theorem C1_create_then_get (API_KEY : Option String) (k : String)
    (hk : some k = API_KEY) (item : ItemCreate) (db : Store)
    (hwf : Store.WF db) :
    ∃ resp : DBItem,
      (create_item_endpoint API_KEY (some k) item true db).1 = .ok resp ∧
      resp.id = db.nextId ∧
      resp.name = some item.name ∧
      resp.price = some item.price ∧
      resp.description = item.description ∧
      resp.is_offer = item.is_offer ∧
      (read_item_endpoint API_KEY (some k) resp.id
        (create_item_endpoint API_KEY (some k) item true db).2).1 = .ok resp := by
  refine ⟨{ id := db.nextId, name := some item.name, price := some item.price,
            description := item.description, is_offer := item.is_offer },
          ?_, rfl, rfl, rfl, rfl, rfl, ?_⟩
  · simp [create_item_endpoint, get_api_key_ok hk]
  · have hnone : db.items.find? (fun r => r.id == db.nextId) = none := by
      rw [List.find?_eq_none]
      intro r hr
      simp only [beq_iff_eq]
      exact Nat.ne_of_lt (hwf r hr)
    simp [read_item_endpoint, get_api_key_ok hk, create_item_endpoint,
          Store.getItem, List.find?_append, hnone]

/-- Witness for C1 at the empty store and payload Widget/10. -/
theorem C1_witness :
    Store.WF store0 ∧
    ∃ resp : DBItem,
      (create_item_endpoint (some "secret") (some "secret")
        { name := "Widget", price := 10 } true store0).1 = .ok resp ∧
      resp.id = store0.nextId ∧
      resp.name = some "Widget" ∧
      resp.price = some 10 ∧
      resp.description = none ∧
      resp.is_offer = none ∧
      (read_item_endpoint (some "secret") (some "secret") resp.id
        (create_item_endpoint (some "secret") (some "secret")
          { name := "Widget", price := 10 } true store0).2).1 = .ok resp :=
  ⟨by unfold Store.WF; decide,
   C1_create_then_get (some "secret") "secret" rfl { name := "Widget", price := 10 }
     store0 (by unfold Store.WF; decide)⟩

/-- Claim C2: every endpoint invoked without the `X-API-Key` header fails
with the missing-credential 401, and with a mismatched key fails with the
invalid-key 401; in both cases the store is returned unchanged. -/
theorem C2_auth_gate (API_KEY : Option String) (k : String)
    (hk : some k ≠ API_KEY) (item : ItemCreate) (item_id : Nat)
    (u : ItemUpdate) (skip limit : Nat) (c : Bool) (db : Store) :
    (create_item_endpoint API_KEY none item c db = (.error missingCredentialExc, db) ∧
     read_item_endpoint API_KEY none item_id db = (.error missingCredentialExc, db) ∧
     list_items_endpoint API_KEY none skip limit db = (.error missingCredentialExc, db) ∧
     update_item_endpoint API_KEY none item_id u c db = (.error missingCredentialExc, db) ∧
     delete_item_endpoint API_KEY none item_id c db = (.error missingCredentialExc, db)) ∧
    (create_item_endpoint API_KEY (some k) item c db = (.error invalidCredentialExc, db) ∧
     read_item_endpoint API_KEY (some k) item_id db = (.error invalidCredentialExc, db) ∧
     list_items_endpoint API_KEY (some k) skip limit db = (.error invalidCredentialExc, db) ∧
     update_item_endpoint API_KEY (some k) item_id u c db = (.error invalidCredentialExc, db) ∧
     delete_item_endpoint API_KEY (some k) item_id c db = (.error invalidCredentialExc, db)) := by
  refine ⟨⟨rfl, rfl, rfl, rfl, rfl⟩, ?_, ?_, ?_, ?_, ?_⟩ <;>
    simp [create_item_endpoint, read_item_endpoint, list_items_endpoint,
          update_item_endpoint, delete_item_endpoint, get_api_key_mismatch hk]

/-- Witness for C2 with secret "secret" and presented key "wrong". -/
theorem C2_witness :
    some "wrong" ≠ some "secret" ∧
    ((create_item_endpoint (some "secret") none { name := "Widget", price := 10 } true store1 =
        (.error missingCredentialExc, store1) ∧
      read_item_endpoint (some "secret") none 1 store1 = (.error missingCredentialExc, store1) ∧
      list_items_endpoint (some "secret") none 0 100 store1 = (.error missingCredentialExc, store1) ∧
      update_item_endpoint (some "secret") none 1 {} true store1 = (.error missingCredentialExc, store1) ∧
      delete_item_endpoint (some "secret") none 1 true store1 = (.error missingCredentialExc, store1)) ∧
     (create_item_endpoint (some "secret") (some "wrong") { name := "Widget", price := 10 } true store1 =
        (.error invalidCredentialExc, store1) ∧
      read_item_endpoint (some "secret") (some "wrong") 1 store1 = (.error invalidCredentialExc, store1) ∧
      list_items_endpoint (some "secret") (some "wrong") 0 100 store1 = (.error invalidCredentialExc, store1) ∧
      update_item_endpoint (some "secret") (some "wrong") 1 {} true store1 = (.error invalidCredentialExc, store1) ∧
      delete_item_endpoint (some "secret") (some "wrong") 1 true store1 = (.error invalidCredentialExc, store1))) :=
  ⟨by decide,
   C2_auth_gate (some "secret") "wrong" (by decide) { name := "Widget", price := 10 }
     1 {} 0 100 true store1⟩

/-- Claim C3: get, update with a non-empty payload, and delete on an id not
present in the store each fail with the 404 not-found error, whose detail
string includes the requested id. -/
theorem C3_not_found (API_KEY : Option String) (k : String)
    (hk : some k = API_KEY) (item_id : Nat) (db : Store)
    (habs : db.getItem item_id = none) (u : ItemUpdate)
    (hu : u.isEmptyDump = false) (c : Bool) :
    read_item_endpoint API_KEY (some k) item_id db = (.error (notFoundExc item_id), db) ∧
    update_item_endpoint API_KEY (some k) item_id u c db = (.error (notFoundExc item_id), db) ∧
    delete_item_endpoint API_KEY (some k) item_id c db = (.error (notFoundExc item_id), db) ∧
    ∃ a b, (notFoundExc item_id).detail = a ++ toString item_id ++ b := by
  refine ⟨?_, ?_, ?_, "Item with id ", " not found", rfl⟩ <;>
    simp [read_item_endpoint, update_item_endpoint, delete_item_endpoint,
          get_api_key_ok hk, habs]

/-- Witness for C3 at id 7 on the one-item store. -/
theorem C3_witness :
    store1.getItem 7 = none ∧
    (({ price := some (some 12) } : ItemUpdate).isEmptyDump = false) ∧
    (read_item_endpoint (some "secret") (some "secret") 7 store1 =
       (.error (notFoundExc 7), store1) ∧
     update_item_endpoint (some "secret") (some "secret") 7 { price := some (some 12) } true store1 =
       (.error (notFoundExc 7), store1) ∧
     delete_item_endpoint (some "secret") (some "secret") 7 true store1 =
       (.error (notFoundExc 7), store1) ∧
     ∃ a b, (notFoundExc 7).detail = a ++ toString 7 ++ b) :=
  ⟨rfl, rfl,
   C3_not_found (some "secret") "secret" rfl 7 store1 rfl { price := some (some 12) } rfl true⟩

end LearnApi

namespace LearnApi

/-- Merging an update into the row found by a primary-key query commutes
with the query: the merged row is found at the same key. -/
lemma find?_map_update (l : List DBItem) (item_id : Nat) (u : ItemUpdate)
    (r : DBItem) (h : l.find? (fun x => x.id == item_id) = some r) :
    (l.map (fun x => if x.id == item_id then applyUpdate u x else x)).find?
      (fun x => x.id == item_id) = some (applyUpdate u r) := by
  have hg : ((fun x => x.id == item_id) ∘
      (fun x => if x.id == item_id then applyUpdate u x else x)) =
      fun x : DBItem => x.id == item_id := by
    funext x
    by_cases hx : x.id = item_id
    · simp [hx, applyUpdate]
    · simp [hx]
  have hp := List.find?_some h
  have hr : r.id = item_id := by simpa using hp
  rw [List.find?_map, hg, h]
  simp [hr]

/-- A primary-key query at a different key is unaffected by the merge. -/
lemma find?_map_update_frame (l : List DBItem) (item_id j : Nat)
    (hne : j ≠ item_id) (u : ItemUpdate) :
    (l.map (fun x => if x.id == item_id then applyUpdate u x else x)).find?
      (fun x => x.id == j) = l.find? (fun x => x.id == j) := by
  have hg : ((fun x => x.id == j) ∘
      (fun x => if x.id == item_id then applyUpdate u x else x)) =
      fun x : DBItem => x.id == j := by
    funext x
    by_cases hx : x.id = item_id
    · simp [hx, applyUpdate]
    · simp [hx]
  rw [List.find?_map, hg]
  cases hfind : l.find? (fun x => x.id == j) with
  | none => rfl
  | some x =>
    have hxj : x.id = j := by simpa using List.find?_some hfind
    have hxi : ¬ x.id = item_id := by rw [hxj]; exact hne
    simp [hxi]

/-- Claim C4: a partial update on a stored item overwrites exactly the
supplied fields with the supplied values; unsupplied fields, the id, the
autoincrement counter and every other key's record keep their prior values. -/
theorem C4_merge_update (API_KEY : Option String) (k : String)
    (hk : some k = API_KEY) (item_id : Nat) (u : ItemUpdate)
    (hu : u.isEmptyDump = false) (db : Store) (r : DBItem)
    (hr : db.getItem item_id = some r) :
    (update_item_endpoint API_KEY (some k) item_id u true db).1 = .ok (applyUpdate u r) ∧
    ((update_item_endpoint API_KEY (some k) item_id u true db).2).getItem item_id =
      some (applyUpdate u r) ∧
    (∀ j, j ≠ item_id →
      ((update_item_endpoint API_KEY (some k) item_id u true db).2).getItem j =
        db.getItem j) ∧
    ((update_item_endpoint API_KEY (some k) item_id u true db).2).nextId = db.nextId ∧
    (applyUpdate u r).id = r.id ∧
    (u.name = none → (applyUpdate u r).name = r.name) ∧
    (∀ v, u.name = some v → (applyUpdate u r).name = v) ∧
    (u.price = none → (applyUpdate u r).price = r.price) ∧
    (∀ v, u.price = some v → (applyUpdate u r).price = v) ∧
    (u.description = none → (applyUpdate u r).description = r.description) ∧
    (∀ v, u.description = some v → (applyUpdate u r).description = v) ∧
    (u.is_offer = none → (applyUpdate u r).is_offer = r.is_offer) ∧
    (∀ v, u.is_offer = some v → (applyUpdate u r).is_offer = v) := by
  refine ⟨?_, ?_, ?_, ?_, rfl, ?_, ?_, ?_, ?_, ?_, ?_, ?_, ?_⟩
  · simp [update_item_endpoint, get_api_key_ok hk, hr, hu]
  · simp only [update_item_endpoint, get_api_key_ok hk, hr, hu]
    simpa [Store.getItem] using find?_map_update db.items item_id u r hr
  · intro j hj
    simp only [update_item_endpoint, get_api_key_ok hk, hr, hu]
    simpa [Store.getItem] using find?_map_update_frame db.items item_id j hj u
  · simp [update_item_endpoint, get_api_key_ok hk, hr, hu]
  · intro h; simp [applyUpdate, h]
  · intro v h; simp [applyUpdate, h]
  · intro h; simp [applyUpdate, h]
  · intro v h; simp [applyUpdate, h]
  · intro h; simp [applyUpdate, h]
  · intro v h; simp [applyUpdate, h]
  · intro h; simp [applyUpdate, h]
  · intro v h; simp [applyUpdate, h]

/-- Witness for C4: set only the price of the stored Widget. -/
theorem C4_witness :
    (({ price := some (some 12) } : ItemUpdate).isEmptyDump = false) ∧
    store1.getItem 1 = some widget ∧
    (update_item_endpoint (some "secret") (some "secret") 1
      { price := some (some 12) } true store1).1 =
      .ok (applyUpdate { price := some (some 12) } widget) ∧
    ((update_item_endpoint (some "secret") (some "secret") 1
      { price := some (some 12) } true store1).2).getItem 1 =
      some (applyUpdate { price := some (some 12) } widget) :=
  ⟨rfl, rfl,
   (C4_merge_update (some "secret") "secret" rfl 1 { price := some (some 12) }
      rfl store1 widget rfl).1,
   (C4_merge_update (some "secret") "secret" rfl 1 { price := some (some 12) }
      rfl store1 widget rfl).2.1⟩

/-- Counterexample to claim C5 as stated: on an id absent from the store, an
update supplying zero fields fails with the 404 not-found error, not the
400 empty-update error. -/
theorem C5_counterexample :
    (update_item_endpoint (some "secret") (some "secret") 1 {} true store0).1 =
      .error (notFoundExc 1) ∧
    notFoundExc 1 ≠ emptyUpdateExc := ⟨rfl, by decide⟩

/-- Claim C5 (amended to ids present in the store): an update supplying zero
fields on a stored id fails with the 400 empty-update error and leaves the
whole store unchanged, whatever the commit outcome would have been. -/
theorem C5_empty_update (API_KEY : Option String) (k : String)
    (hk : some k = API_KEY) (item_id : Nat) (db : Store) (r : DBItem)
    (hr : db.getItem item_id = some r) (u : ItemUpdate)
    (hu : u.isEmptyDump = true) (c : Bool) :
    update_item_endpoint API_KEY (some k) item_id u c db =
      (.error emptyUpdateExc, db) := by
  simp [update_item_endpoint, get_api_key_ok hk, hr, hu]

/-- Witness for C5 at the one-item store with the all-unset payload. -/
theorem C5_witness :
    store1.getItem 1 = some widget ∧
    (({} : ItemUpdate).isEmptyDump = true) ∧
    update_item_endpoint (some "secret") (some "secret") 1 {} true store1 =
      (.error emptyUpdateExc, store1) :=
  ⟨rfl, rfl, C5_empty_update (some "secret") "secret" rfl 1 store1 widget rfl {} rfl true⟩

/-- Claim C6: when the store signals a failure at commit, create, update
(reached with a stored id and a non-empty payload) and delete each fail
with their 500 persistence error and return the store exactly as it was
before the operation. -/
theorem C6_rollback (API_KEY : Option String) (k : String)
    (hk : some k = API_KEY) (db : Store) (item : ItemCreate) (item_id : Nat)
    (u : ItemUpdate) (hu : u.isEmptyDump = false) (r : DBItem)
    (hr : db.getItem item_id = some r) :
    create_item_endpoint API_KEY (some k) item false db =
      (.error createFailedExc, db) ∧
    update_item_endpoint API_KEY (some k) item_id u false db =
      (.error updateFailedExc, db) ∧
    delete_item_endpoint API_KEY (some k) item_id false db =
      (.error deleteFailedExc, db) := by
  refine ⟨?_, ?_, ?_⟩ <;>
    simp [create_item_endpoint, update_item_endpoint, delete_item_endpoint,
          get_api_key_ok hk, hr, hu]

/-- Witness for C6 on the one-item store. -/
theorem C6_witness :
    (({ price := some (some 12) } : ItemUpdate).isEmptyDump = false) ∧
    store1.getItem 1 = some widget ∧
    (create_item_endpoint (some "secret") (some "secret")
       { name := "Widget", price := 10 } false store1 =
       (.error createFailedExc, store1) ∧
     update_item_endpoint (some "secret") (some "secret") 1
       { price := some (some 12) } false store1 =
       (.error updateFailedExc, store1) ∧
     delete_item_endpoint (some "secret") (some "secret") 1 false store1 =
       (.error deleteFailedExc, store1)) :=
  ⟨rfl, rfl,
   C6_rollback (some "secret") "secret" rfl store1 { name := "Widget", price := 10 }
     1 { price := some (some 12) } rfl widget rfl⟩

/-- Claim C7: with a valid key, list never errors, returns at most `limit`
records, returns the empty sequence whenever `skip` is at least the record
count, and leaves the store unchanged. -/
theorem C7_list (API_KEY : Option String) (k : String)
    (hk : some k = API_KEY) (skip limit : Nat) (db : Store) :
    ∃ out : List DBItem,
      (list_items_endpoint API_KEY (some k) skip limit db).1 = .ok out ∧
      out.length ≤ limit ∧
      (db.items.length ≤ skip → out = []) ∧
      (list_items_endpoint API_KEY (some k) skip limit db).2 = db := by
  refine ⟨(db.items.drop skip).take limit, ?_, ?_, ?_, ?_⟩
  · simp [list_items_endpoint, get_api_key_ok hk]
  · rw [List.length_take]
    exact min_le_left _ _
  · intro h
    rw [List.drop_eq_nil_of_le h]
    exact List.take_nil
  · simp [list_items_endpoint, get_api_key_ok hk]

/-- Witness for C7 at skip 5, limit 2 on the one-item store. -/
theorem C7_witness :
    ∃ out : List DBItem,
      (list_items_endpoint (some "secret") (some "secret") 5 2 store1).1 = .ok out ∧
      out.length ≤ 2 ∧
      (store1.items.length ≤ 5 → out = []) ∧
      (list_items_endpoint (some "secret") (some "secret") 5 2 store1).2 = store1 :=
  C7_list (some "secret") "secret" rfl 5 2 store1

end LearnApi

namespace LearnApi

/-- The request body of a create whose name is the empty string. -/
def emptyNameBody : Json :=
  Json.obj [("name", Json.str ""), ("price", Json.num 1)]

/-- Counterexample to claim C8 as stated: a create payload whose name is the
empty string passes validation, does not fail with the 422 validation error,
and reaches the store, which afterwards holds the empty-named item. -/
theorem C8_counterexample :
    validateItemCreate emptyNameBody =
      .ok { name := "", price := 1, description := none, is_offer := none } ∧
    (create_item_raw (some "secret") (some "secret") emptyNameBody true store0).1 =
      .ok { id := 1, name := some "", price := some 1, description := none,
            is_offer := none } ∧
    (create_item_raw (some "secret") (some "secret") emptyNameBody true store0).2.items =
      [{ id := 1, name := some "", price := some 1, description := none,
         is_offer := none }] :=
  ⟨rfl, rfl, rfl⟩

/-- Claim C8 (amended: emptiness of the name is not checked): validation
only requires `name` to be present and string-typed — any string, the empty
one included, passes — and the create then succeeds and stores the item
with that name. -/
theorem C8_name_not_checked (API_KEY : Option String) (k : String)
    (hk : some k = API_KEY) (s : String) (q : Rat) (db : Store) :
    validateItemCreate (Json.obj [("name", Json.str s), ("price", Json.num q)]) =
      .ok { name := s, price := q, description := none, is_offer := none } ∧
    (create_item_raw API_KEY (some k)
        (Json.obj [("name", Json.str s), ("price", Json.num q)]) true db).1 =
      .ok { id := db.nextId, name := some s, price := some q, description := none,
            is_offer := none } ∧
    (create_item_raw API_KEY (some k)
        (Json.obj [("name", Json.str s), ("price", Json.num q)]) true db).2.items =
      db.items ++ [{ id := db.nextId, name := some s, price := some q,
                     description := none, is_offer := none }] := by
  refine ⟨rfl, ?_, ?_⟩ <;>
    simp [create_item_raw, get_api_key_ok hk, create_item_endpoint,
          validateItemCreate, Json.getField, parseRequiredStr, parseRequiredNum,
          parseOptionalStr, parseOptionalBool, List.find?, bind, Except.bind,
          pure, Except.pure]

/-- Witness for C8 with the empty-string name on the empty store. -/
theorem C8_witness :
    validateItemCreate (Json.obj [("name", Json.str ""), ("price", Json.num 1)]) =
      .ok { name := "", price := 1, description := none, is_offer := none } ∧
    (create_item_raw (some "k") (some "k")
        (Json.obj [("name", Json.str ""), ("price", Json.num 1)]) true store0).1 =
      .ok { id := store0.nextId, name := some "", price := some 1,
            description := none, is_offer := none } ∧
    (create_item_raw (some "k") (some "k")
        (Json.obj [("name", Json.str ""), ("price", Json.num 1)]) true store0).2.items =
      store0.items ++ [{ id := store0.nextId, name := some "", price := some 1,
                         description := none, is_offer := none }] :=
  C8_name_not_checked (some "k") "k" rfl "" 1 store0

/-- Claim C9: on an id absent from the store, an update supplying zero
fields fails with the 404 not-found error (status 404, not 400): the
existence check runs before the empty-payload check. -/
theorem C9_not_found_first (API_KEY : Option String) (k : String)
    (hk : some k = API_KEY) (item_id : Nat) (db : Store)
    (habs : db.getItem item_id = none) (u : ItemUpdate)
    (hu : u.isEmptyDump = true) (c : Bool) :
    update_item_endpoint API_KEY (some k) item_id u c db =
      (.error (notFoundExc item_id), db) ∧
    (notFoundExc item_id).status_code = 404 ∧
    (notFoundExc item_id).status_code ≠ 400 := by
  refine ⟨?_, rfl, by simp [notFoundExc]⟩
  simp [update_item_endpoint, get_api_key_ok hk, habs]

/-- Witness for C9 at id 7 on the one-item store with the all-unset payload. -/
theorem C9_witness :
    store1.getItem 7 = none ∧
    (({} : ItemUpdate).isEmptyDump = true) ∧
    (update_item_endpoint (some "secret") (some "secret") 7 {} true store1 =
       (.error (notFoundExc 7), store1) ∧
     (notFoundExc 7).status_code = 404 ∧
     (notFoundExc 7).status_code ≠ 400) :=
  ⟨rfl, rfl, C9_not_found_first (some "secret") "secret" rfl 7 store1 rfl {} rfl true⟩

/-- Claim C10: when the configured secret is unset (`API_KEY` is None), any
presented key whatsoever fails the `!=` comparison against None, so every
endpoint invoked with a credential header fails with the invalid-key 401
and leaves the store unchanged. -/
theorem C10_unset_secret (k : String) (item : ItemCreate) (item_id : Nat)
    (u : ItemUpdate) (skip limit : Nat) (c : Bool) (db : Store) :
    get_api_key none (some k) = .error invalidCredentialExc ∧
    create_item_endpoint none (some k) item c db = (.error invalidCredentialExc, db) ∧
    read_item_endpoint none (some k) item_id db = (.error invalidCredentialExc, db) ∧
    list_items_endpoint none (some k) skip limit db = (.error invalidCredentialExc, db) ∧
    update_item_endpoint none (some k) item_id u c db = (.error invalidCredentialExc, db) ∧
    delete_item_endpoint none (some k) item_id c db = (.error invalidCredentialExc, db) := by
  have hk : some k ≠ (none : Option String) := by simp
  refine ⟨get_api_key_mismatch hk, ?_, ?_, ?_, ?_, ?_⟩ <;>
    simp [create_item_endpoint, read_item_endpoint, list_items_endpoint,
          update_item_endpoint, delete_item_endpoint, get_api_key_mismatch hk]

end LearnApi
